import Mathlib

/-!
Verification of the asset-dumper core (`src/main.rs`) against its
natural-language specification.

Shallow embedding conventions:
* Machine bytes are `Nat` values (`< 256` for real inputs); the mapped file
  is a `List Nat`.
* `u64`/`usize` arithmetic that can overflow is modelled with explicit
  `% 18446744073709551616` (wrapping, as in a release build) or with the
  saturating operation the source uses (`saturating_add`).
* The brotli decompressor is an external collaborator; every function that
  consumes it takes an oracle `decomp : List Nat -> Option (List Nat)`
  (`none` models a decompression failure, `some` the decompressed bytes).
* Rust panics (`expect`, `assert!`, out-of-bounds string slicing,
  `unreachable!`) are modelled as a distinguished outcome (`Option.none` for
  `heuristic_search_assets`, `RunOutcome.panicked` for the whole run).
* Asset names are kept as their byte sequences (the Rust `String` is built
  from bytes that were just checked to be ASCII).
* The container parser (`object` crate) is external: `Dumper.new` is
  modelled from the point where parsing succeeded, taking the parsed
  section list as input.  Its mmap/parse error paths are outside the model.
-/

/-- The two binary formats the program handles (`object::BinaryFormat`);
every other format hits `unreachable!()` in the source and is outside the
model. -/
inductive BinaryFormat where
  | pe
  | macho
deriving DecidableEq

/-- Section kinds relevant to the `.rdata` filter (`object::SectionKind`);
all kinds other than read-only data are collapsed into representatives. -/
inductive SectionKind where
  | readOnlyData
  | text
  | data
  | other
deriving DecidableEq

/-- Mirrors `struct SectionInfo { virtual_address, file_offset, size }`. -/
structure SectionInfo where
  virtual_address : Nat
  file_offset : Nat
  size : Nat
deriving DecidableEq

/-- One section as reported by the external container parser: the fields of
`object::Section` that `Dumper::new` reads (`name`, `segment_name`, `kind`,
`address`, `file_range().0`, `size`). -/
structure ObjSection where
  name : String
  segment_name : Option String
  kind : SectionKind
  address : Nat
  file_offset : Nat
  size : Nat
deriving DecidableEq

/-- Mirrors `struct Asset { name, data }`; the name is kept as its byte
sequence. -/
structure Asset where
  name : List Nat
  data : List Nat
deriving DecidableEq

/-- Mirrors `struct Dumper { mmap, sections, binary_format }`. -/
structure Dumper where
  mmap : List Nat
  sections : List SectionInfo
  binary_format : BinaryFormat
deriving DecidableEq

/-- `ASSET_HEADER_SIZE = size_of::<AssetHeader>()`: four 8-byte fields. -/
def ASSET_HEADER_SIZE : Nat := 32

/-- `2^64`, the modulus of `u64`/`usize` arithmetic. -/
def U64_MOD : Nat := 18446744073709551616

/-- `usize::saturating_add` on a 64-bit target. -/
def saturating_add (a b : Nat) : Nat := min (a + b) (U64_MOD - 1)

/-- The sub-slice `l[off .. off+len]` (Rust slicing of the mmap; all uses in
the source are bounds-checked beforehand, so the truncating `take`/`drop`
agrees with Rust on every reachable input). -/
def slice_bytes (l : List Nat) (off len : Nat) : List Nat :=
  (l.drop off).take len

/-- Reading one little-endian `u64` field of the in-place reinterpreted
`AssetHeader` (the unsafe pointer cast in `parse_asset`, on a little-endian
64-bit target). -/
def read_u64_le (l : List Nat) (off : Nat) : Nat :=
  l.getD off 0
    + 256 * l.getD (off + 1) 0
    + 65536 * l.getD (off + 2) 0
    + 16777216 * l.getD (off + 3) 0
    + 4294967296 * l.getD (off + 4) 0
    + 1099511627776 * l.getD (off + 5) 0
    + 281474976710656 * l.getD (off + 6) 0
    + 72057594037927936 * l.getD (off + 7) 0

/-- The PE selection predicate of `Dumper::new`:
`s.name() == Ok(".rdata") && s.kind() == SectionKind::ReadOnlyData`. -/
def pe_section_filter (s : ObjSection) : Bool :=
  s.name == ".rdata" && s.kind == SectionKind.readOnlyData

/-- The Mach-O selection predicate of `Dumper::new`: segment name `__TEXT`
or `__DATA_CONST`, and section name `__const`. -/
def macho_section_filter (s : ObjSection) : Bool :=
  (s.segment_name == some "__TEXT" || s.segment_name == some "__DATA_CONST")
    && s.name == "__const"

/-- The `map` step of `Dumper::new` building a `SectionInfo` from a parsed
section. -/
def toSectionInfo (s : ObjSection) : SectionInfo :=
  { virtual_address := s.address, file_offset := s.file_offset, size := s.size }

/-- `Dumper::new`, modelled from the point where `object::File::parse`
succeeded (mmap/parse failures are external I/O).  For both supported
formats it filters the parsed sections and always returns `Ok`. -/
def Dumper.new (mmap : List Nat) (fmt : BinaryFormat)
    (objSections : List ObjSection) : Except String Dumper :=
  let sections :=
    match fmt with
    | BinaryFormat.pe => (objSections.filter pe_section_filter).map toSectionInfo
    | BinaryFormat.macho => (objSections.filter macho_section_filter).map toSectionInfo
  Except.ok { mmap := mmap, sections := sections, binary_format := fmt }

/-- `Dumper::convert_rva_to_file_offset`.  Mach-O: mask to the low 48 bits,
unconditionally `Ok`.  PE: use the first collected section; if none exists
return the "RDATA section not found" error; if the rva lies in
`[virtual_address, virtual_address + size)` return
`rva - virtual_address + file_offset`, otherwise the "not in rdata" error.
`u64` additions are wrapping (release build), hence the `% U64_MOD`. -/
def convert_rva_to_file_offset (d : Dumper) (rva : Nat) : Except String Nat :=
  match d.binary_format with
  | BinaryFormat.macho => Except.ok (rva &&& 281474976710655)
  | BinaryFormat.pe =>
    match d.sections.head? with
    | none => Except.error "RDATA section not found"
    | some sect =>
      if sect.virtual_address ≤ rva
          ∧ rva < (sect.virtual_address + sect.size) % U64_MOD then
        Except.ok ((rva - sect.virtual_address + sect.file_offset) % U64_MOD)
      else
        Except.error "RVA is not in rdata section"

/-- `Dumper::validate_asset_pointers`, with the brotli decompressor as the
oracle `decomp`.  The pointer arguments are the already-translated file
offsets, as in the source. -/
def validate_asset_pointers (d : Dumper)
    (decomp : List Nat → Option (List Nat))
    (name_ptr name_len data_ptr data_size : Nat) : Bool :=
  if name_ptr ≥ d.mmap.length
      ∨ saturating_add name_ptr name_len > d.mmap.length
      ∨ data_ptr ≥ d.mmap.length
      ∨ saturating_add data_ptr data_size > d.mmap.length then
    false
  else if d.mmap.getD name_ptr 0 ≠ 47 then
    false
  else
    (decomp (slice_bytes d.mmap data_ptr data_size)).isSome

/-- `Dumper::retrieve_asset_name`: slice out the name bytes, reject unless
every byte is ASCII (`b < 128`); the name is kept as its bytes. -/
def retrieve_asset_name (d : Dumper) (offset len : Nat) :
    Except String (List Nat) :=
  let name := slice_bytes d.mmap offset len
  if ¬ name.all (fun b => b < 128) then Except.error "invalid name"
  else Except.ok name

/-- `Dumper::retrieve_asset_data`: copy the data bytes out of the map. -/
def retrieve_asset_data (d : Dumper) (offset len : Nat) : List Nat :=
  slice_bytes d.mmap offset len

/-- `Dumper::parse_asset`: read the four header fields at `offset`,
translate both pointers, validate, then retrieve name and data. -/
def parse_asset (d : Dumper) (decomp : List Nat → Option (List Nat))
    (offset : Nat) : Except String Asset :=
  if offset + ASSET_HEADER_SIZE > d.mmap.length then
    Except.error "offset is out of range"
  else
    let name_ptr := read_u64_le d.mmap offset
    let name_len := read_u64_le d.mmap (offset + 8)
    let data_ptr := read_u64_le d.mmap (offset + 16)
    let data_size := read_u64_le d.mmap (offset + 24)
    match convert_rva_to_file_offset d name_ptr with
    | Except.error e => Except.error e
    | Except.ok name_off =>
      match convert_rva_to_file_offset d data_ptr with
      | Except.error e => Except.error e
      | Except.ok data_off =>
        if ¬ validate_asset_pointers d decomp name_off name_len data_off data_size then
          Except.error "invalid asset pointers"
        else
          match retrieve_asset_name d name_off name_len with
          | Except.error e => Except.error e
          | Except.ok name =>
            Except.ok { name := name, data := retrieve_asset_data d data_off data_size }

/-- The scan loop of `heuristic_search_assets`, with the accepted assets
paired with the offset that produced them.  `fuel` bounds the number of
iterations for structural recursion; since every iteration advances the
offset by at least 8, any `fuel` with `8 * fuel + offset ≥ endOff` is
enough (see `scanLoop_stable`), and the caller passes `endOff`.  The `hit`
flag models the mutable `scan_step` variable: `scan_step = 8` before the
first accepted descriptor and `scan_step = ASSET_HEADER_SIZE` afterwards
(the source never resets it). -/
def scanLoop (parse : Nat → Option Asset) (endOff : Nat) :
    Nat → Nat → Bool → List (Nat × Asset)
  | 0, _, _ => []
  | fuel + 1, offset, hit =>
    if offset + ASSET_HEADER_SIZE ≤ endOff then
      match parse offset with
      | some a => (offset, a) :: scanLoop parse endOff fuel (offset + ASSET_HEADER_SIZE) true
      | none => scanLoop parse endOff fuel (offset + (if hit then ASSET_HEADER_SIZE else 8)) hit
    else []

/-- The sequence of offsets probed by the scan loop of
`heuristic_search_assets` (same control flow as `scanLoop`, recording every
offset at which `parse_asset` is attempted). -/
def scanTrace (parse : Nat → Option Asset) (endOff : Nat) :
    Nat → Nat → Bool → List Nat
  | 0, _, _ => []
  | fuel + 1, offset, hit =>
    if offset + ASSET_HEADER_SIZE ≤ endOff then
      offset ::
        (match parse offset with
          | some _ => scanTrace parse endOff fuel (offset + ASSET_HEADER_SIZE) true
          | none => scanTrace parse endOff fuel (offset + (if hit then ASSET_HEADER_SIZE else 8)) hit)
    else []

/-- The scan-region selection of `heuristic_search_assets`: PE uses the
first collected section, Mach-O the last; `none` models the `expect` panic
when the list is empty. -/
def scan_section (d : Dumper) : Option SectionInfo :=
  match d.binary_format with
  | BinaryFormat.pe => d.sections.head?
  | BinaryFormat.macho => d.sections.getLast?

/-- `Dumper::heuristic_search_assets`.  `none` models a panic (the
`expect` on a missing section or the `assert!` on the scan bounds);
otherwise the scan loop runs over `[scan_start, end_offset)` starting with
step 8 and no hit recorded. -/
def heuristic_search_assets (d : Dumper)
    (decomp : List Nat → Option (List Nat)) : Option (List Asset) :=
  match scan_section d with
  | none => none
  | some sect =>
    let scan_start := sect.file_offset
    let scan_length := sect.size
    let end_offset := saturating_add scan_start scan_length
    if end_offset ≤ d.mmap.length then
      some ((scanLoop (fun o => (parse_asset d decomp o).toOption)
        end_offset end_offset scan_start false).map Prod.snd)
    else
      none

/-- `Dumper::decompress_asset`: run the decompressor over the asset's
stored compressed bytes. -/
def decompress_asset (decomp : List Nat → Option (List Nat)) (a : Asset) :
    Option (List Nat) :=
  decomp a.data

/-- Outcome of the whole run: a panic, a propagated error, or the list of
written files as (relative path bytes, decompressed content) pairs. -/
inductive RunOutcome where
  | panicked
  | err (msg : String)
  | ok (files : List (List Nat × List Nat))
deriving DecidableEq

/-- The emission loop of `main`: for each asset decompress it (an error
aborts the run), strip the leading `/` from the name by slicing from byte 1
(`&asset.name[1..]`, which panics on an empty name), and write the file. -/
def emit_assets (decomp : List Nat → Option (List Nat)) :
    List Asset → RunOutcome
  | [] => RunOutcome.ok []
  | a :: rest =>
    match decompress_asset decomp a with
    | none => RunOutcome.err "decompression failed"
    | some decompressed =>
      if a.name = [] then RunOutcome.panicked
      else
        match emit_assets decomp rest with
        | RunOutcome.ok files => RunOutcome.ok ((a.name.drop 1, decompressed) :: files)
        | other => other

/-- `fn main` from the point where the file is open and the `Dumper` is
built: scan, fail with "No assets found" on an empty result, otherwise emit
every asset in order. -/
def main_run (d : Dumper) (decomp : List Nat → Option (List Nat)) :
    RunOutcome :=
  match heuristic_search_assets d decomp with
  | none => RunOutcome.panicked
  | some assets =>
    if assets.isEmpty then RunOutcome.err "No assets found"
    else emit_assets decomp assets

/-- A 72-byte PE-style test image: one descriptor at offset 0 with
`name_ptr = 32`, `name_len = 2`, `data_ptr = 40`, `data_size = 4`; the name
bytes "/a" at offset 32; the compressed block `[1,2,3,4]` at offset 40. -/
def mmap1 : List Nat :=
  [32, 0, 0, 0, 0, 0, 0, 0,
   2, 0, 0, 0, 0, 0, 0, 0,
   40, 0, 0, 0, 0, 0, 0, 0,
   4, 0, 0, 0, 0, 0, 0, 0,
   47, 97, 0, 0, 0, 0, 0, 0,
   1, 2, 3, 4] ++ List.replicate 28 0

/-- A PE session over `mmap1` whose single `.rdata` region is the first 48
bytes mapped at virtual address 0. -/
def dumper1 : Dumper :=
  { mmap := mmap1
    sections := [{ virtual_address := 0, file_offset := 0, size := 48 }]
    binary_format := BinaryFormat.pe }

/-- A decompression oracle that succeeds exactly on the block `[1,2,3,4]`,
yielding `[9,9]`. -/
def decomp1 : List Nat → Option (List Nat) :=
  fun l => if l = [1, 2, 3, 4] then some [9, 9] else none

/-- Like `mmap1` but with `name_len = 0`: the descriptor still points at the
`/` byte, so it validates, and its extracted name is empty. -/
def mmap2 : List Nat :=
  [32, 0, 0, 0, 0, 0, 0, 0,
   0, 0, 0, 0, 0, 0, 0, 0,
   40, 0, 0, 0, 0, 0, 0, 0,
   4, 0, 0, 0, 0, 0, 0, 0,
   47, 97, 0, 0, 0, 0, 0, 0,
   1, 2, 3, 4] ++ List.replicate 28 0

/-- A PE session over `mmap2` (same region layout as `dumper1`). -/
def dumper2 : Dumper :=
  { mmap := mmap2
    sections := [{ virtual_address := 0, file_offset := 0, size := 48 }]
    binary_format := BinaryFormat.pe }

/-- A parse oracle for exercising the scan loop: accepts an asset exactly
at offset 0. -/
def parse0 : Nat → Option Asset :=
  fun o => if o = 0 then some { name := [47], data := [1] } else none

/-- Every pair produced by the scan loop lies at or after the current
offset and was accepted by the parse oracle at its recorded offset. -/
theorem scanLoop_mem (parse : Nat → Option Asset) (endOff : Nat) :
    ∀ (fuel offset : Nat) (hit : Bool) (p : Nat × Asset),
      p ∈ scanLoop parse endOff fuel offset hit →
      offset ≤ p.1 ∧ parse p.1 = some p.2 := by
  intro fuel
  induction fuel with
  | zero =>
    intro offset hit p hp
    simp [scanLoop] at hp
  | succ n ih =>
    intro offset hit p hp
    rw [scanLoop] at hp
    split at hp
    · cases hpo : parse offset with
      | some a =>
        rw [hpo] at hp
        rcases List.mem_cons.mp hp with h | h
        · subst h
          exact ⟨Nat.le_refl _, hpo⟩
        · have h2 := ih _ _ _ h
          exact ⟨by omega, h2.2⟩
      | none =>
        rw [hpo] at hp
        have h2 := ih _ _ _ hp
        refine ⟨?_, h2.2⟩
        have := h2.1
        omega
    · simp at hp

/-- The pairs produced by the scan loop have strictly increasing offsets. -/
theorem scanLoop_chain (parse : Nat → Option Asset) (endOff : Nat) :
    ∀ (fuel offset : Nat) (hit : Bool),
      List.Chain' (fun p q : Nat × Asset => p.1 < q.1)
        (scanLoop parse endOff fuel offset hit) := by
  intro fuel
  induction fuel with
  | zero =>
    intro offset hit
    simp [scanLoop]
  | succ n ih =>
    intro offset hit
    rw [scanLoop]
    split
    · cases hpo : parse offset with
      | some a =>
        refine List.chain'_cons'.mpr ⟨?_, ih _ _⟩
        intro q hq
        have hmem := List.mem_of_mem_head? hq
        have h2 := (scanLoop_mem parse endOff n _ _ q hmem).1
        show offset < q.1
        have h32 : (ASSET_HEADER_SIZE : Nat) = 32 := rfl
        omega
      | none =>
        exact ih _ _
    · exact List.chain'_nil

/-- When the emission loop completes, the written files are exactly the
accepted assets in order: path is the name with its first byte stripped,
content is the decompressed data. -/
theorem emit_assets_ok_eq (decomp : List Nat → Option (List Nat)) :
    ∀ (assets : List Asset) (outs : List (List Nat × List Nat)),
      emit_assets decomp assets = RunOutcome.ok outs →
      outs = assets.map (fun a => (a.name.drop 1, (decomp a.data).getD [])) := by
  intro assets
  induction assets with
  | nil =>
    intro outs h
    rw [emit_assets] at h
    cases h
    rfl
  | cons a rest ih =>
    intro outs h
    rw [emit_assets] at h
    cases hd : decompress_asset decomp a with
    | none =>
      rw [hd] at h
      cases h
    | some dec =>
      simp only [hd] at h
      by_cases hn : a.name = []
      · rw [if_pos hn] at h
        cases h
      · rw [if_neg hn] at h
        cases he : emit_assets decomp rest with
        | panicked =>
          simp only [he] at h
          cases h
        | err msg =>
          simp only [he] at h
          cases h
        | ok files =>
          simp only [he] at h
          cases h
          have hfiles := ih files he
          have hdec : decomp a.data = some dec := hd
          simp [hfiles, hdec]

/-- C1 (amended): for the PE container, construction of the scanning
session never fails on the matching-region count: `Dumper::new` returns
`Ok` with every region matching the read-only-data selection predicate (so
with more than one match the first is the one later used).  With zero
matching regions the failure is deferred instead of raised at
initialization: every subsequent address translation returns the
"RDATA section not found" error and the scan itself panics. -/
theorem dumper_new_never_fails_on_region_count (mm : List Nat)
    (objSections : List ObjSection)
    (h : objSections.filter pe_section_filter = []) :
    Dumper.new mm BinaryFormat.pe objSections
      = Except.ok { mmap := mm, sections := [], binary_format := BinaryFormat.pe } ∧
    (∀ rva, convert_rva_to_file_offset
        { mmap := mm, sections := [], binary_format := BinaryFormat.pe } rva
      = Except.error "RDATA section not found") ∧
    (∀ decomp, heuristic_search_assets
        { mmap := mm, sections := [], binary_format := BinaryFormat.pe } decomp
      = none) := by
  refine ⟨?_, ?_, ?_⟩
  · simp [Dumper.new, h]
  · intro rva
    rfl
  · intro decomp
    rfl

/-- Witness for `dumper_new_never_fails_on_region_count` at the concrete
empty file with an empty section list. -/
theorem dumper_new_never_fails_witness :
    Dumper.new [] BinaryFormat.pe []
      = Except.ok { mmap := [], sections := [], binary_format := BinaryFormat.pe } ∧
    (∀ rva, convert_rva_to_file_offset
        { mmap := [], sections := [], binary_format := BinaryFormat.pe } rva
      = Except.error "RDATA section not found") ∧
    (∀ decomp, heuristic_search_assets
        { mmap := [], sections := [], binary_format := BinaryFormat.pe } decomp
      = none) :=
  dumper_new_never_fails_on_region_count [] [] rfl

/-- Counterexample to C1 as stated: with zero matching regions and with two
matching regions, `Dumper::new` still succeeds (returns `Ok`), so
initialization does not fail when the matching-region count differs from
one. -/
theorem dumper_new_succeeds_with_zero_and_two_regions :
    Dumper.new [] BinaryFormat.pe []
      = Except.ok { mmap := [], sections := [], binary_format := BinaryFormat.pe } ∧
    Dumper.new [] BinaryFormat.pe
        [{ name := ".rdata", segment_name := none, kind := SectionKind.readOnlyData,
           address := 0, file_offset := 0, size := 16 },
         { name := ".rdata", segment_name := none, kind := SectionKind.readOnlyData,
           address := 100, file_offset := 32, size := 16 }]
      = Except.ok
          { mmap := []
            sections := [{ virtual_address := 0, file_offset := 0, size := 16 },
                         { virtual_address := 100, file_offset := 32, size := 16 }]
            binary_format := BinaryFormat.pe } :=
  ⟨rfl, rfl⟩

/-- C2 (amended): after an offset at which validation succeeds the scan
advances by the 32-byte record size; after an offset at which validation
fails it advances by the current step, which is 8 bytes only while no
descriptor has been accepted yet and 32 bytes once one has (the step is
never reset to 8). -/
theorem scan_step_policy (parse : Nat → Option Asset)
    (endOff fuel offset : Nat) (hit : Bool)
    (h : offset + ASSET_HEADER_SIZE ≤ endOff) :
    (∀ a, parse offset = some a →
      scanTrace parse endOff (fuel + 1) offset hit
        = offset :: scanTrace parse endOff fuel (offset + ASSET_HEADER_SIZE) true) ∧
    (parse offset = none →
      scanTrace parse endOff (fuel + 1) offset hit
        = offset ::
            scanTrace parse endOff fuel
              (offset + (if hit then ASSET_HEADER_SIZE else 8)) hit) := by
  constructor
  · intro a ha
    rw [scanTrace, if_pos h, ha]
  · intro ha
    rw [scanTrace, if_pos h, ha]

/-- Witness for `scan_step_policy`: the concrete oracle `parse0` accepts at
offset 0, and the next probed offset is 32. -/
theorem scan_step_policy_witness :
    scanTrace parse0 104 104 0 false = 0 :: scanTrace parse0 104 103 32 true :=
  (scan_step_policy parse0 104 103 0 false (by decide)).1 _ rfl

/-- Counterexample to C2 as stated: scanning with `parse0` (a hit exactly at
offset 0) probes offsets 0, 32, 64; validation fails at offset 32 yet the
scan advances to 64, not 40, so a failing offset is not always followed by
an 8-byte advance. -/
theorem scan_failure_advance_not_always_8 :
    scanTrace parse0 104 104 0 false = [0, 32, 64] ∧ parse0 32 = none ∧
    ¬ List.Chain' (fun a b => parse0 a = none → b = a + 8)
        (scanTrace parse0 104 104 0 false) := by
  refine ⟨rfl, rfl, ?_⟩
  intro hchain
  rw [show scanTrace parse0 104 104 0 false = [0, 32, 64] from rfl] at hchain
  have h2 := List.chain'_cons.mp (List.chain'_cons.mp hchain).2
  have h3 := h2.1 rfl
  omega

/-- C3: the validator rejects any candidate whose translated name offset is
at or past the file length, or whose saturating `offset + len` exceeds the
file length, for the name and data fields alike; in particular (on any file
shorter than `usize::MAX` bytes) a candidate whose `offset + len` would
wrap 64-bit arithmetic saturates instead and is rejected. -/
theorem validate_rejects_out_of_bounds (d : Dumper)
    (decomp : List Nat → Option (List Nat))
    (name_off name_len data_off data_size : Nat) :
    (name_off ≥ d.mmap.length
        ∨ saturating_add name_off name_len > d.mmap.length
        ∨ data_off ≥ d.mmap.length
        ∨ saturating_add data_off data_size > d.mmap.length →
      validate_asset_pointers d decomp name_off name_len data_off data_size
        = false) ∧
    (d.mmap.length < U64_MOD - 1 → name_off + name_len ≥ U64_MOD →
      validate_asset_pointers d decomp name_off name_len data_off data_size
        = false) ∧
    (d.mmap.length < U64_MOD - 1 → data_off + data_size ≥ U64_MOD →
      validate_asset_pointers d decomp name_off name_len data_off data_size
        = false) := by
  have main : name_off ≥ d.mmap.length
      ∨ saturating_add name_off name_len > d.mmap.length
      ∨ data_off ≥ d.mmap.length
      ∨ saturating_add data_off data_size > d.mmap.length →
      validate_asset_pointers d decomp name_off name_len data_off data_size
        = false := by
    intro h
    unfold validate_asset_pointers
    rw [if_pos h]
  refine ⟨main, ?_, ?_⟩
  · intro h1 h2
    refine main (Or.inr (Or.inl ?_))
    unfold saturating_add U64_MOD at *
    omega
  · intro h1 h2
    refine main (Or.inr (Or.inr (Or.inr ?_)))
    unfold saturating_add U64_MOD at *
    omega

/-- Witness for `validate_rejects_out_of_bounds`: a name length so large
that the sum wraps 64-bit arithmetic is rejected on the 72-byte test
image. -/
theorem validate_rejects_out_of_bounds_witness :
    validate_asset_pointers dumper1 decomp1 8 18446744073709551608 0 0
      = false :=
  (validate_rejects_out_of_bounds dumper1 decomp1
    8 18446744073709551608 0 0).2.1 (by decide) (by decide)

/-- C4: for the PE translator with designated (first) region `s` that does
not overflow 64-bit arithmetic, every address in
`[s.virtual_address, s.virtual_address + s.size)` translates to
`s.file_offset + (rva - s.virtual_address)`, and every address outside that
interval translates to the (soft) "not in rdata" error. -/
theorem convert_pe_translation (mm : List Nat) (s : SectionInfo)
    (rest : List SectionInfo) (rva : Nat)
    (hsize : s.virtual_address + s.size < U64_MOD)
    (hres : s.file_offset + s.size < U64_MOD) :
    (s.virtual_address ≤ rva → rva < s.virtual_address + s.size →
      convert_rva_to_file_offset
          { mmap := mm, sections := s :: rest, binary_format := BinaryFormat.pe }
          rva
        = Except.ok (s.file_offset + (rva - s.virtual_address))) ∧
    (rva < s.virtual_address ∨ s.virtual_address + s.size ≤ rva →
      convert_rva_to_file_offset
          { mmap := mm, sections := s :: rest, binary_format := BinaryFormat.pe }
          rva
        = Except.error "RVA is not in rdata section") := by
  have hconv : convert_rva_to_file_offset
      { mmap := mm, sections := s :: rest, binary_format := BinaryFormat.pe } rva
      = if s.virtual_address ≤ rva
            ∧ rva < (s.virtual_address + s.size) % U64_MOD then
          Except.ok ((rva - s.virtual_address + s.file_offset) % U64_MOD)
        else Except.error "RVA is not in rdata section" := rfl
  have hmod : (s.virtual_address + s.size) % U64_MOD
      = s.virtual_address + s.size := Nat.mod_eq_of_lt hsize
  constructor
  · intro h1 h2
    rw [hconv, hmod, if_pos ⟨h1, h2⟩,
      Nat.mod_eq_of_lt (show rva - s.virtual_address + s.file_offset < U64_MOD
        by omega)]
    exact congrArg Except.ok (by omega)
  · intro h
    rw [hconv, hmod, if_neg (by omega)]

/-- Witness for `convert_pe_translation`: the region at virtual address
100, file offset 10, size 50 maps address 120 to offset 30, and rejects
addresses 99 and 150. -/
theorem convert_pe_translation_witness :
    convert_rva_to_file_offset
        { mmap := [],
          sections := [{ virtual_address := 100, file_offset := 10, size := 50 }],
          binary_format := BinaryFormat.pe } 120
      = Except.ok 30 :=
  (convert_pe_translation []
    { virtual_address := 100, file_offset := 10, size := 50 } [] 120
    (by decide) (by decide)).1 (by decide) (by decide)

/-- C5: the Mach-O translator succeeds on every address, returning its low
48 bits (`rva &&& 0xFFFFFFFFFFFF`), with no containment check; the result
is always below `2^48`, so nonzero high 16 bits are discarded. -/
theorem convert_macho_masks_low48 (mm : List Nat)
    (sections : List SectionInfo) (rva : Nat) :
    convert_rva_to_file_offset
        { mmap := mm, sections := sections, binary_format := BinaryFormat.macho }
        rva
      = Except.ok (rva &&& 281474976710655) ∧
    rva &&& 281474976710655 < 281474976710656 :=
  ⟨rfl, lt_of_le_of_lt Nat.and_le_right (by norm_num)⟩

/-- C6: a candidate whose translated name offset points at a byte other
than ASCII `/` (47) is rejected by the validator, whatever the other three
fields are (in particular even when every bounds check passes, as in the
claim). -/
theorem validate_rejects_non_slash (d : Dumper)
    (decomp : List Nat → Option (List Nat))
    (name_off name_len data_off data_size : Nat)
    (hbyte : d.mmap.getD name_off 0 ≠ 47) :
    validate_asset_pointers d decomp name_off name_len data_off data_size
      = false := by
  by_cases hb : name_off ≥ d.mmap.length
      ∨ saturating_add name_off name_len > d.mmap.length
      ∨ data_off ≥ d.mmap.length
      ∨ saturating_add data_off data_size > d.mmap.length
  · unfold validate_asset_pointers
    rw [if_pos hb]
  · unfold validate_asset_pointers
    rw [if_neg hb, if_pos hbyte]

/-- Witness for `validate_rejects_non_slash`: offset 33 of the test image
holds byte 97 (`a`), and the candidate is rejected although all four bounds
checks pass. -/
theorem validate_rejects_non_slash_witness :
    validate_asset_pointers dumper1 decomp1 33 2 40 4 = false :=
  validate_rejects_non_slash dumper1 decomp1 33 2 40 4 (by decide)

/-- C7: a candidate whose data range fails the decompression oracle is
rejected by the validator, and every per-candidate rejection is absorbed
silently by the scan loop: when the parse fails at an offset still inside
the region the loop simply continues from the advanced offset with the
same accumulated result and step state. -/
theorem validate_rejects_decomp_failure_and_scan_absorbs (d : Dumper)
    (decomp : List Nat → Option (List Nat))
    (name_off name_len data_off data_size : Nat)
    (hdec : decomp (slice_bytes d.mmap data_off data_size) = none) :
    validate_asset_pointers d decomp name_off name_len data_off data_size
      = false ∧
    (∀ (parse : Nat → Option Asset) (endOff fuel offset : Nat) (hit : Bool),
      parse offset = none → offset + ASSET_HEADER_SIZE ≤ endOff →
      scanLoop parse endOff (fuel + 1) offset hit
        = scanLoop parse endOff fuel
            (offset + (if hit then ASSET_HEADER_SIZE else 8)) hit) := by
  constructor
  · by_cases hb : name_off ≥ d.mmap.length
        ∨ saturating_add name_off name_len > d.mmap.length
        ∨ data_off ≥ d.mmap.length
        ∨ saturating_add data_off data_size > d.mmap.length
    · unfold validate_asset_pointers
      rw [if_pos hb]
    · by_cases hbyte : d.mmap.getD name_off 0 ≠ 47
      · unfold validate_asset_pointers
        rw [if_neg hb, if_pos hbyte]
      · unfold validate_asset_pointers
        rw [if_neg hb, if_neg hbyte, hdec]
        rfl
  · intro parse endOff fuel offset hit hp hle
    rw [scanLoop, if_pos hle, hp]

/-- Witness for `validate_rejects_decomp_failure_and_scan_absorbs`: with an
always-failing decompressor the otherwise well-formed descriptor of the
test image is rejected. -/
theorem validate_rejects_decomp_failure_witness :
    validate_asset_pointers dumper1 (fun _ => none) 32 2 40 4 = false :=
  (validate_rejects_decomp_failure_and_scan_absorbs dumper1 (fun _ => none)
    32 2 40 4 rfl).1

/-- C8: whenever the scan completes (no panic), the accepted assets are
exactly the parses accepted along the walk, listed with strictly ascending
file offsets of the descriptors that produced them; determinism is
inherent, the result being a function of the session and oracle alone. -/
theorem scan_results_in_ascending_offset_order (d : Dumper)
    (decomp : List Nat → Option (List Nat)) (assets : List Asset)
    (h : heuristic_search_assets d decomp = some assets) :
    ∃ ps : List (Nat × Asset),
      List.Chain' (fun p q => p.1 < q.1) ps ∧
      assets = ps.map Prod.snd ∧
      ∀ p ∈ ps, (parse_asset d decomp p.1).toOption = some p.2 := by
  unfold heuristic_search_assets at h
  cases hs : scan_section d with
  | none =>
    rw [hs] at h
    cases h
  | some sect =>
    rw [hs] at h
    simp only at h
    by_cases hend : saturating_add sect.file_offset sect.size ≤ d.mmap.length
    · rw [if_pos hend] at h
      refine ⟨scanLoop (fun o => (parse_asset d decomp o).toOption)
          (saturating_add sect.file_offset sect.size)
          (saturating_add sect.file_offset sect.size) sect.file_offset false,
        scanLoop_chain _ _ _ _ _, ?_, ?_⟩
      · exact (Option.some.inj h).symm
      · intro p hp
        exact (scanLoop_mem _ _ _ _ _ p hp).2
    · rw [if_neg hend] at h
      cases h

/-- Witness for `scan_results_in_ascending_offset_order` on the concrete
test session, whose scan accepts exactly one asset. -/
theorem scan_results_order_witness :
    ∃ ps : List (Nat × Asset),
      List.Chain' (fun p q => p.1 < q.1) ps ∧
      [{ name := [47, 97], data := [1, 2, 3, 4] }] = ps.map Prod.snd ∧
      ∀ p ∈ ps, (parse_asset dumper1 decomp1 p.1).toOption = some p.2 :=
  scan_results_in_ascending_offset_order dumper1 decomp1 _ rfl

/-- C9: a scan that accepts zero descriptors makes the run terminate with
the hard "No assets found" error (writing nothing); a run that completes
with output emitted exactly the accepted assets, in order: one file per
asset, its path the asset name minus the leading byte and its content the
decompressed data. -/
theorem run_zero_assets_errors_and_emits_only_accepted (d : Dumper)
    (decomp : List Nat → Option (List Nat)) :
    (heuristic_search_assets d decomp = some [] →
      main_run d decomp = RunOutcome.err "No assets found") ∧
    (∀ assets outs, heuristic_search_assets d decomp = some assets →
      main_run d decomp = RunOutcome.ok outs →
      assets ≠ [] ∧
      outs = assets.map (fun a => (a.name.drop 1, (decomp a.data).getD []))) := by
  constructor
  · intro h
    unfold main_run
    simp only [h]
    rfl
  · intro assets outs h1 h2
    unfold main_run at h2
    simp only [h1] at h2
    cases assets with
    | nil => simp at h2
    | cons a rest =>
      refine ⟨by simp, ?_⟩
      apply emit_assets_ok_eq
      simpa using h2

/-- Witness for `run_zero_assets_errors_and_emits_only_accepted`: the test
session accepts one asset and the completed run wrote exactly that asset's
stripped name and decompressed content. -/
theorem run_outcomes_witness :
    ([{ name := [47, 97], data := [1, 2, 3, 4] }] : List Asset) ≠ [] ∧
    [([97], [9, 9])]
      = ([{ name := [47, 97], data := [1, 2, 3, 4] }] : List Asset).map
          (fun a => (a.name.drop 1, (decomp1 a.data).getD [])) :=
  (run_zero_assets_errors_and_emits_only_accepted dumper1 decomp1).2
    _ _ rfl rfl

/-- C10: a descriptor with `name_len = 0` can be accepted — on the test
image `mmap2` the candidate at offset 0 validates (the bounds checks hold
vacuously and the signature byte is still read at the translated name
offset) and yields an asset with the empty name — and the emission step
then panics on the leading-byte strip of the empty name instead of
returning an error, as it does for every accepted asset whose name is
empty once its data decompresses. -/
theorem empty_name_accepted_and_emission_panics :
    parse_asset dumper2 decomp1 0
      = Except.ok { name := [], data := [1, 2, 3, 4] } ∧
    main_run dumper2 decomp1 = RunOutcome.panicked ∧
    (∀ (decomp : List Nat → Option (List Nat)) (a : Asset)
        (rest : List Asset),
      a.name = [] → (decomp a.data).isSome = true →
      emit_assets decomp (a :: rest) = RunOutcome.panicked) := by
  refine ⟨rfl, rfl, ?_⟩
  intro decomp a rest hname hsome
  rw [emit_assets]
  cases hd : decomp a.data with
  | none =>
    rw [hd] at hsome
    cases hsome
  | some dec =>
    have hda : decompress_asset decomp a = some dec := hd
    simp only [hda]
    rw [if_pos hname]

/-- Witness for `empty_name_accepted_and_emission_panics`: emitting the
concrete empty-named asset panics. -/
theorem empty_name_emission_panics_witness :
    emit_assets decomp1 [{ name := [], data := [1, 2, 3, 4] }]
      = RunOutcome.panicked :=
  empty_name_accepted_and_emission_panics.2.2 decomp1
    { name := [], data := [1, 2, 3, 4] } [] rfl (by decide)
